import Mathlib

/-!
Verification of the pipeline lifecycle and result-normalization layer of
`src/services/paddleocr_vl_service.py` (class `PaddleOCRVLService`).

The Python code is shallowly embedded:
* Python exceptions become the inductive `PyExc` (an exception has a type
  name, a message, and — when raised with `raise ... from e` — a cause).
* Python values handled by `_make_serializable` become the inductive `PyObj`
  (None, str, int, float, bool, list, tuple, dict, callables, objects with a
  `__dict__`, and other opaque objects).  Float values are never computed
  with, only passed through, so a float is carried as its literal text.
  Callables carry the outcome of invoking them (a value or a raised
  exception); attribute access in the model reads the object's `__dict__`
  list, which is also what the fallback conversion traverses.
* The pipeline collaborator (`PaddleOCRVL`) is a record with a `predict`
  entry point whose behaviour (result units or raised exception) is a
  parameter; invocation failure and iteration failure both surface as the
  `Except` error of `predict`, since in the source both are raised inside
  the same `try` block (lines 146-178).
* The filesystem seen by `process_image_bytes` is the set of existing
  paths; `tempfile.NamedTemporaryFile` creation, the byte write and
  `Path.unlink` are modelled through `TmpEnv`/`FS` below.
-/

namespace POVL

/-- A Python exception: `base ty msg` for a plainly raised exception,
`wrapped ty msg cause` for one raised with `raise ... from cause`. -/
inductive PyExc where
  | base (ty : String) (msg : String)
  | wrapped (ty : String) (msg : String) (cause : PyExc)
deriving DecidableEq, Repr

/-- The exception's class name. -/
def PyExc.ty : PyExc → String
  | .base t _ => t
  | .wrapped t _ _ => t

/-- `str(e)`: the exception's message. -/
def PyExc.msg : PyExc → String
  | .base _ m => m
  | .wrapped _ m _ => m

/-- `e.__cause__`. -/
def PyExc.cause : PyExc → Option PyExc
  | .base _ _ => none
  | .wrapped _ _ c => some c

mutual
/-- A Python value as seen by `_make_serializable` (lines 44-98) and the
result loop of `process_image` (lines 152-169). -/
inductive PyObj where
  | pnone
  | pstr (s : String)
  | pint (n : Int)
  | pfloat (lit : String)
  | pbool (b : Bool)
  | plist (xs : PyObjList)
  | ptuple (xs : PyObjList)
  | pdict (es : PyEntries)
  | pcallable (call : PyCall)
  | pobj (attrs : PyAttrs)
  | pother (rep : String) (jsonOk : Bool)

/-- Elements of a Python list or tuple. -/
inductive PyObjList where
  | nil
  | cons (x : PyObj) (xs : PyObjList)

/-- Entries of a Python dict (keys are arbitrary hashable values). -/
inductive PyEntries where
  | nil
  | cons (k : PyObj) (v : PyObj) (rest : PyEntries)

/-- An object's `__dict__`: attribute names to values. -/
inductive PyAttrs where
  | nil
  | cons (k : String) (v : PyObj) (rest : PyAttrs)

/-- What invoking a callable does: return a value or raise. -/
inductive PyCall where
  | ok (v : PyObj)
  | raises (e : PyExc)
end

/-- `PyObjList` as a Lean list. -/
def PyObjList.toList : PyObjList → List PyObj
  | .nil => []
  | .cons x xs => x :: xs.toList

/-- `PyEntries` as a Lean list of pairs. -/
def PyEntries.toList : PyEntries → List (PyObj × PyObj)
  | .nil => []
  | .cons k v rest => (k, v) :: rest.toList

/-- `PyAttrs` as a Lean list of pairs. -/
def PyAttrs.toList : PyAttrs → List (String × PyObj)
  | .nil => []
  | .cons k v rest => (k, v) :: rest.toList

/-- Python `callable(obj)` on the modelled values. -/
def isCallable : PyObj → Bool
  | .pcallable _ => true
  | _ => false

/-- `s.startswith(pre)`: prefix test, computed structurally over the
character lists. -/
def strStartsWith (s pre : String) : Bool := pre.toList.isPrefixOf s.toList

/-- Attribute lookup in an object's `__dict__` (first match; Python dict
keys are unique). -/
def PyAttrs.find : PyAttrs → String → Option PyObj
  | .nil, _ => none
  | .cons k v rest, nm => if k = nm then some v else rest.find nm

/-- `getattr`-style access as used by `hasattr(res, 'to_dict')` /
`res.to_dict` on line 157: only objects carry attributes in the model. -/
def getattr : PyObj → String → Option PyObj
  | .pobj attrs, nm => attrs.find nm
  | _, _ => none

mutual
/-- `PaddleOCRVLService._make_serializable` (lines 44-98): None and
primitives pass through; lists and tuples convert element-wise to a list;
dicts keep their keys and convert non-callable values; a callable becomes
None; an object with `__dict__` becomes a dict of its non-underscore,
non-callable attributes with converted values; anything else stays as is
when `json.dumps` succeeds on it and otherwise becomes `str(obj)`. -/
def make_serializable : PyObj → PyObj
  | .pnone => .pnone
  | .pstr s => .pstr s
  | .pint n => .pint n
  | .pfloat f => .pfloat f
  | .pbool b => .pbool b
  | .plist xs => .plist (msList xs)
  | .ptuple xs => .plist (msList xs)
  | .pdict es => .pdict (msEntries es)
  | .pcallable _ => .pnone
  | .pobj attrs => .pdict (msAttrs attrs)
  | .pother r ok => if ok then .pother r ok else .pstr r

/-- The list comprehension of line 71. -/
def msList : PyObjList → PyObjList
  | .nil => .nil
  | .cons x xs => .cons (make_serializable x) (msList xs)

/-- The dict comprehension of line 75: values that are callable are
dropped, kept values are converted, keys pass through unconverted. -/
def msEntries : PyEntries → PyEntries
  | .nil => .nil
  | .cons k v rest =>
    if isCallable v then msEntries rest
    else .cons k (make_serializable v) (msEntries rest)

/-- The `__dict__` comprehension of lines 84-88: attributes whose name
starts with an underscore and callable attributes are skipped; kept
attribute names become string keys, values are converted. -/
def msAttrs : PyAttrs → PyEntries
  | .nil => .nil
  | .cons k v rest =>
    if strStartsWith k "_" || isCallable v then msAttrs rest
    else .cons (.pstr k) (make_serializable v) (msAttrs rest)
end

/-- A value `json.dumps` accepts as a dict key (str, int, float, bool,
None). -/
def scalarKey : PyObj → Bool
  | .pnone => true
  | .pstr _ => true
  | .pint _ => true
  | .pfloat _ => true
  | .pbool _ => true
  | _ => false

mutual
/-- Whether `json.dumps` succeeds on the value: primitives and
well-formed containers; callables and plain objects are rejected;
an opaque value carries its own `json.dumps` verdict. -/
def jsonSerializable : PyObj → Bool
  | .pnone => true
  | .pstr _ => true
  | .pint _ => true
  | .pfloat _ => true
  | .pbool _ => true
  | .plist xs => jsonList xs
  | .ptuple xs => jsonList xs
  | .pdict es => jsonEntries es
  | .pcallable _ => false
  | .pobj _ => false
  | .pother _ ok => ok

/-- All elements serializable. -/
def jsonList : PyObjList → Bool
  | .nil => true
  | .cons x xs => jsonSerializable x && jsonList xs

/-- All keys primitive and all values serializable. -/
def jsonEntries : PyEntries → Bool
  | .nil => true
  | .cons k v rest => scalarKey k && jsonSerializable v && jsonEntries rest
end

mutual
/-- Every dict reachable in the value has primitive keys (a sufficient
condition under which the fallback conversion yields JSON-serializable
output). -/
def keysPrimitive : PyObj → Bool
  | .pnone => true
  | .pstr _ => true
  | .pint _ => true
  | .pfloat _ => true
  | .pbool _ => true
  | .plist xs => keysPrimitiveList xs
  | .ptuple xs => keysPrimitiveList xs
  | .pdict es => keysPrimitiveEntries es
  | .pcallable _ => true
  | .pobj attrs => keysPrimitiveAttrs attrs
  | .pother _ _ => true

/-- `keysPrimitive` over list elements. -/
def keysPrimitiveList : PyObjList → Bool
  | .nil => true
  | .cons x xs => keysPrimitive x && keysPrimitiveList xs

/-- `keysPrimitive` over dict entries: every key primitive, recurse into
values. -/
def keysPrimitiveEntries : PyEntries → Bool
  | .nil => true
  | .cons k v rest => scalarKey k && keysPrimitive v && keysPrimitiveEntries rest

/-- `keysPrimitive` over attribute values. -/
def keysPrimitiveAttrs : PyAttrs → Bool
  | .nil => true
  | .cons _ v rest => keysPrimitive v && keysPrimitiveAttrs rest
end

/-- Whether `needle` begins at some position of `hay`. -/
def subList (hay needle : List Char) : Bool :=
  needle.isPrefixOf hay ||
    match hay with
    | [] => false
    | _ :: rest => subList rest needle

/-- Whether `s` contains `sub` as a substring. -/
def strContains (s sub : String) : Bool := subList s.toList sub.toList

/-- Whether the exception or any exception in its cause chain mentions
`sub` in its message. -/
def excMentions : PyExc → String → Bool
  | .base _ m, sub => strContains m sub
  | .wrapped _ m c, sub => strContains m sub || excMentions c sub

/-! ### The pipeline collaborator and `process_image` -/

/-- The external `PaddleOCRVL` pipeline (§6 of the spec): a `predict`
entry point taking the staged path and producing the finite sequence of
raw inference units, or raising.  Failure of the invocation and failure
while iterating the returned sequence both land in the same `try` block
of `process_image`, so both are the `Except.error` case here. -/
structure Pipeline where
  predict : String → Except PyExc (List PyObj)

/-- The capability probe of line 157:
`hasattr(res, 'to_dict') and callable(res.to_dict)`. -/
def usesToDict (res : PyObj) : Bool :=
  match getattr res "to_dict" with
  | some (.pcallable _) => true
  | _ => false

/-- One iteration of the result loop (lines 155-169): a unit with a
callable `to_dict` contributes the value `to_dict()` returns verbatim
(or propagates what it raises); any other unit goes through the
`_make_serializable` fallback. -/
def normalizeUnit (res : PyObj) : Except PyExc PyObj :=
  match getattr res "to_dict" with
  | some (.pcallable (.ok v)) => .ok v
  | some (.pcallable (.raises e)) => .error e
  | _ => .ok (make_serializable res)

/-- The whole result loop: normalized results in input order, stopping at
the first raised exception. -/
def collectUnits : List PyObj → Except PyExc (List PyObj)
  | [] => .ok []
  | res :: rest =>
    match normalizeUnit res with
    | .error e => .error e
    | .ok v =>
      match collectUnits rest with
      | .error e => .error e
      | .ok vs => .ok (v :: vs)

/-- How many times the fallback warning of lines 162-166 is emitted while
normalizing the units: once per unit lacking a callable `to_dict`. -/
def countFallbackWarnings (units : List PyObj) : Nat :=
  (units.filter (fun u => !usesToDict u)).length

/-- The body of the `try` of lines 146-175: predict, then collect. -/
def tryBody (pl : Pipeline) (path : String) : Except PyExc (List PyObj) :=
  match pl.predict path with
  | .error e => .error e
  | .ok units => collectUnits units

/-- Line 178: `raise RuntimeError(f"Image processing failed: ...") from e`. -/
def processingWrap (e : PyExc) : PyExc :=
  .wrapped "RuntimeError" ("Image processing failed: " ++ e.msg) e

/-- Line 127: `raise RuntimeError(f"PaddleOCR-VL initialization failed: ...") from e`. -/
def initWrap (e : PyExc) : PyExc :=
  .wrapped "RuntimeError" ("PaddleOCR-VL initialization failed: " ++ e.msg) e

/-- Sequential view of `_initialize_pipeline` (lines 100-127): the state
is `self._pipeline`, `construct` is the outcome of `PaddleOCRVL()`.
Already-present pipeline: no effect.  Successful construction stores the
handle.  A construction failure is wrapped by `initWrap` and the handle
stays unset; there is no retry inside the call. -/
def initialize_pipeline (st : Option Pipeline) (construct : Except PyExc Pipeline) :
    Except PyExc Unit × Option Pipeline :=
  match st with
  | some _ => (.ok (), st)
  | none =>
    match construct with
    | .ok p => (.ok (), some p)
    | .error e => (.error (initWrap e), none)

/-- `is_ready` (lines 212-214): `self._pipeline is not None`. -/
def is_ready (st : Option Pipeline) : Bool := st.isSome

/-- `get_status` initialized field (line 219). -/
def statusInitialized (st : Option Pipeline) : Bool := is_ready st

/-- The guarded `try` of `process_image`: run predict and collect, wrapping
any exception from either into a Processing Failure `RuntimeError`. -/
def runPredict (pl : Pipeline) (path : String) : Except PyExc (List PyObj) :=
  match tryBody pl path with
  | .ok rs => .ok rs
  | .error e => .error (processingWrap e)

/-- `process_image` (lines 129-178): initialize lazily when the handle is
unset (an initialization failure propagates as raised, un-rewrapped, since
the `_initialize_pipeline()` call sits before the `try`), then predict and
normalize.  The third branch (`initialize` succeeded without storing a
handle) is unreachable; it models the `AttributeError` the `try` block
would wrap if `self._pipeline` were still `None`. -/
def process_image (st : Option Pipeline) (construct : Except PyExc Pipeline)
    (path : String) : Except PyExc (List PyObj) × Option Pipeline :=
  match st with
  | some pl => (runPredict pl path, some pl)
  | none =>
    match initialize_pipeline none construct with
    | (.error e, st1) => (.error e, st1)
    | (.ok _, some pl) => (runPredict pl path, some pl)
    | (.ok _, none) =>
      (.error (processingWrap (.base "AttributeError"
        "NoneType object has no attribute predict")), none)

/-! ### Input staging: `process_image_bytes` -/

/-- Characters of the final path component: restart the accumulator at
every separator. -/
def pathNameAux : List Char → List Char → List Char
  | [], acc => acc.reverse
  | c :: rest, acc => if c = '/' then pathNameAux rest [] else pathNameAux rest (c :: acc)

/-- The final path component, as `pathlib` takes `name`. -/
def pathName (filename : String) : String :=
  String.mk (pathNameAux filename.toList [])

/-- Index of the last dot in the character list, if any. -/
def lastDotIdx : List Char → Option Nat
  | [] => none
  | c :: rest =>
    match lastDotIdx rest with
    | some i => some (i + 1)
    | none => if c = '.' then some 0 else none

/-- `PurePath.suffix`: the extension of the final component from its last
dot, empty when the dot is absent, leading or trailing (CPython keeps
`name[i:]` only when `0 < i < len(name) - 1`). -/
def pySuffix (filename : String) : String :=
  let cs := (pathName filename).toList
  match lastDotIdx cs with
  | some i => if 0 < i ∧ i < cs.length - 1 then String.mk (cs.drop i) else ""
  | none => ""

/-- Line 195: `Path(filename).suffix or ".jpg"`. -/
def stagedSuffix (filename : String) : String :=
  let s := pySuffix filename
  if s = "" then ".jpg" else s

/-- The filesystem as the set of existing paths. -/
structure FS where
  files : List String

/-- Whether the path exists. -/
def FS.hasFile (fs : FS) (p : String) : Bool := fs.files.contains p

/-- File creation (`NamedTemporaryFile(..., delete=False)`). -/
def FS.create (fs : FS) (p : String) : FS := ⟨p :: fs.files⟩

/-- `Path(p).unlink()`: the path stops existing. -/
def FS.remove (fs : FS) (p : String) : FS := ⟨fs.files.filter (fun q => q != p)⟩

/-- Environment of one `process_image_bytes` call: the temporary path the
OS picks (its stem; the chosen suffix is appended), whether the
`temp_file.write` raises, and whether the `unlink` of the `finally`
raises (e.g. a permission error). -/
structure TmpEnv where
  tmpBase : String
  writeError : Option PyExc
  unlinkRaises : Bool

/-- `process_image_bytes` (lines 180-209).  The temporary file is created
first (`delete=False`); a write failure propagates the bare exception —
the `with` statement closes the file but the `try/finally` has not been
entered, so nothing deletes it.  Otherwise the staged path is processed
and the `finally` unlinks it, logging (and swallowing) an unlink
failure. -/
def process_image_bytes (st : Option Pipeline) (construct : Except PyExc Pipeline)
    (filename : String) (env : TmpEnv) (fs : FS) :
    Except PyExc (List PyObj) × Option Pipeline × FS :=
  let tmpPath := env.tmpBase ++ stagedSuffix filename
  let fs1 := fs.create tmpPath
  match env.writeError with
  | some e => (.error e, st, fs1)
  | none =>
    let r := process_image st construct tmpPath
    let fs2 := if env.unlinkRaises then fs1 else fs1.remove tmpPath
    (r.1, r.2, fs2)

/-! ### Concrete objects used to exercise the definitions -/

/-- The structure `to_dict()` returns in the self-describing scenario:
a dict with keys a and b, where b holds a two-element list. -/
def demoDict : PyObj :=
  .pdict (.cons (.pstr "a") (.pint 1)
    (.cons (.pstr "b") (.plist (.cons (.pint 1) (.cons (.pint 2) .nil))) .nil))

/-- A raw inference unit with a callable `to_dict` returning `demoDict`. -/
def demoToDictUnit : PyObj :=
  .pobj (.cons "to_dict" (.pcallable (.ok demoDict)) .nil)

/-- A unit without `to_dict`: attributes bbox, label, and the callable
attribute compute. -/
def demoFallbackUnit : PyObj :=
  .pobj (.cons "bbox"
    (.plist (.cons (.pint 0) (.cons (.pint 0) (.cons (.pint 10) (.cons (.pint 10) .nil)))))
    (.cons "label" (.pstr "text")
      (.cons "compute" (.pcallable (.ok .pnone)) .nil)))

/-- What the fallback conversion makes of `demoFallbackUnit`: bbox and
label kept, compute absent. -/
def demoFallbackResult : PyObj :=
  .pdict (.cons (.pstr "bbox")
    (.plist (.cons (.pint 0) (.cons (.pint 0) (.cons (.pint 10) (.cons (.pint 10) .nil)))))
    (.cons (.pstr "label") (.pstr "text") .nil))

/-- An exception a collaborator raises during prediction. -/
def predictErr : PyExc := .base "ValueError" "boom"

/-- A pipeline whose prediction always raises `predictErr`. -/
def errPipeline : Pipeline := ⟨fun _ => .error predictErr⟩

/-- A pipeline whose prediction finds nothing. -/
def okPipeline : Pipeline := ⟨fun _ => .ok []⟩

/-- A dict holding a callable value: `json.dumps` rejects it. -/
def badDict : PyObj := .pdict (.cons (.pstr "f") (.pcallable (.ok .pnone)) .nil)

/-- A unit whose `to_dict` returns the non-serializable `badDict`. -/
def badToDictUnit : PyObj := .pobj (.cons "to_dict" (.pcallable (.ok badDict)) .nil)

/-- A unit whose `to_dict` itself raises. -/
def raisingUnit : PyObj :=
  .pobj (.cons "to_dict" (.pcallable (.raises (.base "KeyError" "missing"))) .nil)

/-- The write failure of the staging scenario. -/
def writeErr : PyExc := .base "OSError" "No space left on device"

/-- Lists nested to depth `n`, to probe the recursion depth of the
fallback conversion. -/
def nestedList : Nat → PyObj
  | 0 => .pnone
  | n + 1 => .plist (.cons (nestedList n) .nil)

/-! ### Interleaving model of the double-checked lock

`_initialize_pipeline` (lines 100-127) run by `n` racing threads.  Each
thread executes: the unsynchronized check of line 105, lock acquisition
(line 108), the re-check of line 109, and construction plus publication
(line 119).  The shared state is `self._pipeline` (handles are numbered by
construction order), the lock owner, and how many constructions ran.  A
thread ends in `done h` once `_initialize_pipeline` returns with handle
`h` published. -/

/-- Program counter of one thread inside `_initialize_pipeline`. -/
inductive TPC where
  | start
  | waitLock
  | locked
  | critical
  | done (h : Nat)
deriving DecidableEq, Repr

/-- Shared state plus all thread positions. -/
structure InitState (n : Nat) where
  pipeline : Option Nat
  lockHeld : Option (Fin n)
  constructions : Nat
  pcs : Fin n → TPC

/-- All `n` threads about to run `_initialize_pipeline` on a fresh
process: no pipeline, lock free, nothing constructed. -/
def initState (n : Nat) : InitState n :=
  ⟨none, none, 0, fun _ => .start⟩

/-- One interleaving step: some thread advances one statement. -/
inductive InitStep (n : Nat) : InitState n → InitState n → Prop where
  | checkSome (s : InitState n) (i : Fin n) (h : Nat) :
      s.pcs i = .start → s.pipeline = some h →
      InitStep n s { s with pcs := Function.update s.pcs i (.done h) }
  | checkNone (s : InitState n) (i : Fin n) :
      s.pcs i = .start → s.pipeline = none →
      InitStep n s { s with pcs := Function.update s.pcs i .waitLock }
  | acquire (s : InitState n) (i : Fin n) :
      s.pcs i = .waitLock → s.lockHeld = none →
      InitStep n s { s with lockHeld := some i, pcs := Function.update s.pcs i .locked }
  | recheckSome (s : InitState n) (i : Fin n) (h : Nat) :
      s.pcs i = .locked → s.pipeline = some h →
      InitStep n s { s with lockHeld := none, pcs := Function.update s.pcs i (.done h) }
  | recheckNone (s : InitState n) (i : Fin n) :
      s.pcs i = .locked → s.pipeline = none →
      InitStep n s { s with pcs := Function.update s.pcs i .critical }
  | construct (s : InitState n) (i : Fin n) :
      s.pcs i = .critical →
      InitStep n s { s with
        pipeline := some s.constructions,
        constructions := s.constructions + 1,
        lockHeld := none,
        pcs := Function.update s.pcs i (.done s.constructions) }

/-- States an execution can reach from the fresh process. -/
def Reaches (n : Nat) (s : InitState n) : Prop :=
  Relation.ReflTransGen (InitStep n) (initState n) s

/-- The inductive invariant of the double-checked lock. -/
structure InitInv {n : Nat} (s : InitState n) : Prop where
  pipe_some : ∀ h, s.pipeline = some h → h = 0 ∧ s.constructions = 1
  pipe_none : s.pipeline = none → s.constructions = 0
  done_pipe : ∀ i h, s.pcs i = TPC.done h → s.pipeline = some h
  lock_own : ∀ i, s.pcs i = TPC.locked ∨ s.pcs i = TPC.critical → s.lockHeld = some i
  crit_pipe : ∀ i, s.pcs i = TPC.critical → s.pipeline = none

/-- A concrete two-thread schedule: thread 0 fails the unsynchronized
check. -/
def demoA : InitState 2 :=
  { initState 2 with pcs := Function.update (initState 2).pcs 0 TPC.waitLock }

/-- Thread 0 takes the lock. -/
def demoB : InitState 2 :=
  { demoA with lockHeld := some 0, pcs := Function.update demoA.pcs 0 TPC.locked }

/-- Thread 0 passes the re-check. -/
def demoC : InitState 2 :=
  { demoB with pcs := Function.update demoB.pcs 0 TPC.critical }

/-- Thread 0 constructs, publishes handle 0 and releases the lock. -/
def demoD : InitState 2 :=
  { demoC with
    pipeline := some demoC.constructions,
    constructions := demoC.constructions + 1,
    lockHeld := none,
    pcs := Function.update demoC.pcs 0 (TPC.done demoC.constructions) }

/-- Thread 1 now passes the unsynchronized check and observes handle 0. -/
def demoE : InitState 2 :=
  { demoD with pcs := Function.update demoD.pcs 1 (TPC.done 0) }

/-! ## Theorems -/

/-- The converted list is the element-wise conversion, order preserved. -/
theorem msList_toList : ∀ xs : PyObjList,
    (msList xs).toList = xs.toList.map make_serializable
  | .nil => rfl
  | .cons x xs => by simp [msList, PyObjList.toList, msList_toList xs]

/-- The converted `__dict__` keeps exactly the non-underscore,
non-callable attributes, in order, with converted values under string
keys. -/
theorem msAttrs_toList : ∀ attrs : PyAttrs,
    (msAttrs attrs).toList =
      (attrs.toList.filter
        (fun kv => !(strStartsWith kv.1 "_" || isCallable kv.2))).map
        (fun kv => (PyObj.pstr kv.1, make_serializable kv.2))
  | .nil => rfl
  | .cons k v rest => by
    by_cases h1 : strStartsWith k "_" = true
    · simp [msAttrs, h1, PyAttrs.toList, List.filter_cons, msAttrs_toList rest]
    · by_cases h2 : isCallable v = true
      · simp [msAttrs, h1, h2, PyAttrs.toList, List.filter_cons, msAttrs_toList rest]
      · simp [msAttrs, h1, h2, PyAttrs.toList, PyEntries.toList, List.filter_cons,
          msAttrs_toList rest]

/-- A path does not survive the filter that removes it. -/
theorem contains_filter_ne (l : List String) (p : String) :
    (l.filter (fun q => q != p)).contains p = false := by
  induction l with
  | nil => rfl
  | cons a l ih =>
    by_cases h : a = p
    · simp [List.filter_cons, h, ih]
    · simp [List.filter_cons, bne_iff_ne, h, ih, Ne.symm h]

/-- C2: with the temporary file written and the unlink behaving as
deletion, the staged path does not exist after `process_image_bytes`,
whatever the pipeline state and prediction behaviour (normal completion,
inference failure or normalization failure alike). -/
theorem c2_tmpfile_cleanup (st : Option Pipeline) (construct : Except PyExc Pipeline)
    (filename base : String) (fs : FS) :
    (process_image_bytes st construct filename ⟨base, none, false⟩ fs).2.2.hasFile
      (base ++ stagedSuffix filename) = false := by
  simp [process_image_bytes, FS.create, FS.remove, FS.hasFile, contains_filter_ne]

/-- C3: a unit exposing a callable `to_dict` contributes the returned
value verbatim, both per unit and through `process_image`. -/
theorem c3_to_dict_verbatim (u v : PyObj) (construct : Except PyExc Pipeline)
    (path : String) (h : getattr u "to_dict" = some (.pcallable (.ok v))) :
    normalizeUnit u = .ok v
    ∧ (process_image (some ⟨fun _ => .ok [u]⟩) construct path).1 = .ok [v] := by
  constructor
  · simp [normalizeUnit, h]
  · simp [process_image, runPredict, tryBody, collectUnits, normalizeUnit, h]

/-- Witness for C3: the unit whose `to_dict` returns a dict with keys a
and b is normalized to exactly that dict. -/
theorem c3_to_dict_verbatim_witness :
    normalizeUnit demoToDictUnit = .ok demoDict
    ∧ (process_image (some ⟨fun _ => .ok [demoToDictUnit]⟩) (.ok okPipeline) "scan.png").1 =
        .ok [demoDict] :=
  c3_to_dict_verbatim demoToDictUnit demoDict (.ok okPipeline) "scan.png" rfl

/-- Counterexample to C4 as stated: an inference failure on input
xyzinput.png is wrapped, but the resulting error mentions the input path
nowhere — neither its message nor any message in its cause chain. -/
theorem c4_path_not_carried :
    (process_image (some errPipeline) (.ok errPipeline) "xyzinput.png").1 =
      .error (processingWrap predictErr)
    ∧ (processingWrap predictErr).msg = "Image processing failed: boom"
    ∧ excMentions (processingWrap predictErr) "xyzinput.png" = false :=
  ⟨rfl, by decide, by decide⟩

/-- C4 (amended): every exception from invocation or result collection is
re-raised as a single `RuntimeError` carrying the original cause; the
underlying exception never escapes unwrapped.  The input path is only
logged, not attached to the error. -/
theorem c4_processing_wrapped (pl : Pipeline) (construct : Except PyExc Pipeline)
    (path : String) (e : PyExc) (h : tryBody pl path = .error e) :
    (process_image (some pl) construct path).1 = .error (processingWrap e)
    ∧ (processingWrap e).ty = "RuntimeError"
    ∧ (processingWrap e).cause = some e := by
  refine ⟨?_, rfl, rfl⟩
  simp [process_image, runPredict, h]

/-- Witness for C4 (amended), at a failing prediction. -/
theorem c4_processing_wrapped_witness :
    (process_image (some errPipeline) (.ok errPipeline) "scan.png").1 =
      .error (processingWrap predictErr)
    ∧ (processingWrap predictErr).ty = "RuntimeError"
    ∧ (processingWrap predictErr).cause = some predictErr :=
  c4_processing_wrapped errPipeline (.ok errPipeline) "scan.png" predictErr rfl

/-- C5: the generic structural fallback leaves scalars unchanged,
converts sequences element-wise preserving order, turns an attributed
object into the mapping of its non-underscore non-callable attributes,
and on the bbox/label/compute unit yields exactly the bbox/label dict
while one fallback warning is recorded. -/
theorem c5_fallback_conversion :
    (make_serializable .pnone = .pnone
      ∧ (∀ s, make_serializable (.pstr s) = .pstr s)
      ∧ (∀ n, make_serializable (.pint n) = .pint n)
      ∧ (∀ f, make_serializable (.pfloat f) = .pfloat f)
      ∧ (∀ b, make_serializable (.pbool b) = .pbool b))
    ∧ (∀ xs, make_serializable (.plist xs) = .plist (msList xs)
        ∧ (msList xs).toList = xs.toList.map make_serializable)
    ∧ (∀ attrs, make_serializable (.pobj attrs) = .pdict (msAttrs attrs)
        ∧ (msAttrs attrs).toList =
            (attrs.toList.filter
              (fun kv => !(strStartsWith kv.1 "_" || isCallable kv.2))).map
              (fun kv => (PyObj.pstr kv.1, make_serializable kv.2)))
    ∧ normalizeUnit demoFallbackUnit = .ok demoFallbackResult
    ∧ countFallbackWarnings [demoFallbackUnit] = 1 :=
  ⟨⟨rfl, fun _ => rfl, fun _ => rfl, fun _ => rfl, fun _ => rfl⟩,
   fun xs => ⟨rfl, msList_toList xs⟩,
   fun attrs => ⟨rfl, msAttrs_toList attrs⟩,
   rfl, rfl⟩

/-- Counterexample to C6 as stated: a unit whose `to_dict` returns a dict
holding a callable is passed through verbatim, so `process_image` returns
a result element that `json.dumps` rejects. -/
theorem c6_nonserializable_result :
    (process_image (some ⟨fun _ => .ok [badToDictUnit]⟩) (.ok okPipeline) "scan.png").1 =
      .ok [badDict]
    ∧ jsonSerializable badDict = false :=
  ⟨rfl, rfl⟩

mutual
/-- Fallback output is serializable when every reachable dict key is
primitive. -/
theorem keysJsonObj : ∀ o : PyObj,
    keysPrimitive o = true → jsonSerializable (make_serializable o) = true
  | .pnone, _ => rfl
  | .pstr _, _ => rfl
  | .pint _, _ => rfl
  | .pfloat _, _ => rfl
  | .pbool _, _ => rfl
  | .plist xs, h => by
    simp only [keysPrimitive] at h
    simp [make_serializable, jsonSerializable, keysJsonList xs h]
  | .ptuple xs, h => by
    simp only [keysPrimitive] at h
    simp [make_serializable, jsonSerializable, keysJsonList xs h]
  | .pdict es, h => by
    simp only [keysPrimitive] at h
    simp [make_serializable, jsonSerializable, keysJsonEntries es h]
  | .pcallable _, _ => rfl
  | .pobj attrs, h => by
    simp only [keysPrimitive] at h
    simp [make_serializable, jsonSerializable, keysJsonAttrs attrs h]
  | .pother r ok, _ => by
    cases ok <;> simp [make_serializable, jsonSerializable]

/-- `keysJsonObj` over list elements. -/
theorem keysJsonList : ∀ xs : PyObjList,
    keysPrimitiveList xs = true → jsonList (msList xs) = true
  | .nil, _ => rfl
  | .cons x xs, h => by
    simp only [keysPrimitiveList, Bool.and_eq_true] at h
    simp [msList, jsonList, keysJsonObj x h.1, keysJsonList xs h.2]

/-- `keysJsonObj` over dict entries. -/
theorem keysJsonEntries : ∀ es : PyEntries,
    keysPrimitiveEntries es = true → jsonEntries (msEntries es) = true
  | .nil, _ => rfl
  | .cons k v rest, h => by
    simp only [keysPrimitiveEntries, Bool.and_eq_true] at h
    by_cases hc : isCallable v = true
    · simp [msEntries, hc, keysJsonEntries rest h.2]
    · simp [msEntries, hc, jsonEntries, h.1.1, keysJsonObj v h.1.2,
        keysJsonEntries rest h.2]

/-- `keysJsonObj` over attribute values. -/
theorem keysJsonAttrs : ∀ a : PyAttrs,
    keysPrimitiveAttrs a = true → jsonEntries (msAttrs a) = true
  | .nil, _ => rfl
  | .cons k v rest, h => by
    simp only [keysPrimitiveAttrs, Bool.and_eq_true] at h
    by_cases hc : (strStartsWith k "_" || isCallable v) = true
    · simp [msAttrs, hc, keysJsonAttrs rest h.2]
    · simp [msAttrs, hc, jsonEntries, scalarKey, keysJsonObj v h.1,
        keysJsonAttrs rest h.2]
end

/-- C6 (amended): an element produced by the structural fallback is
JSON-serializable — free of callables and of objects without a primitive
or container representation — whenever every dict reachable in the unit
has primitive keys; an element produced by `to_dict` is used verbatim,
with no serializability guarantee. -/
theorem c6_fallback_serializable (o : PyObj) (h : keysPrimitive o = true) :
    jsonSerializable (make_serializable o) = true :=
  keysJsonObj o h

/-- Witness for C6 (amended) at the bbox/label/compute unit. -/
theorem c6_fallback_serializable_witness :
    keysPrimitive demoFallbackUnit = true
    ∧ jsonSerializable (make_serializable demoFallbackUnit) = true :=
  ⟨rfl, c6_fallback_serializable demoFallbackUnit rfl⟩

/-- The fallback conversion reproduces a nested list at full depth. -/
theorem ms_nestedList : ∀ n : Nat, make_serializable (nestedList n) = nestedList n
  | 0 => rfl
  | n + 1 => by simp [nestedList, make_serializable, msList, ms_nestedList n]

/-- Counterexample to C7 as stated: no recursion cap exists — whatever
cap one proposes, a deeper nested input is still converted unchanged,
with no string placeholder appearing. -/
theorem c7_no_depth_cap :
    ¬ ∃ cap : Nat, ∀ n, cap < n → make_serializable (nestedList n) ≠ nestedList n := by
  rintro ⟨cap, h⟩
  exact h (cap + 1) (Nat.lt_succ_self cap) (ms_nestedList (cap + 1))

/-- C7 (amended): the conversion terminates on every finite acyclic
object graph, recursing to arbitrary depth without a cap and without ever
substituting a placeholder; cyclic object graphs are not guarded
against. -/
theorem c7_full_depth_conversion :
    ∀ n : Nat, make_serializable (nestedList n) = nestedList n :=
  ms_nestedList

/-- C8: a pipeline construction failure is raised as a single
`RuntimeError` carrying the cause, the handle stays unset (`is_ready`
still false), and a later call may construct successfully. -/
theorem c8_init_failure_state :
    ∀ e : PyExc,
      initialize_pipeline none (.error e) = (.error (initWrap e), none)
      ∧ (initWrap e).ty = "RuntimeError"
      ∧ (initWrap e).cause = some e
      ∧ is_ready (initialize_pipeline none (.error e)).2 = false
      ∧ ∀ p : Pipeline,
          initialize_pipeline (initialize_pipeline none (.error e)).2 (.ok p) =
            (.ok (), some p) :=
  fun _ => ⟨rfl, rfl, rfl, rfl, fun _ => rfl⟩

/-- Counterexample to C9 as stated: a failing write propagates the bare
`OSError` — no `RuntimeError` wrapping, no cause — and the staged file is
left behind. -/
theorem c9_bare_write_error :
    (process_image_bytes (some okPipeline) (.ok okPipeline) "scan.png"
        ⟨"tmpdir/stage", some writeErr, false⟩ ⟨[]⟩).1 = .error writeErr
    ∧ writeErr.ty = "OSError"
    ∧ writeErr.cause = none
    ∧ (process_image_bytes (some okPipeline) (.ok okPipeline) "scan.png"
        ⟨"tmpdir/stage", some writeErr, false⟩ ⟨[]⟩).2.2.hasFile "tmpdir/stage.png" = true :=
  ⟨rfl, rfl, rfl, by decide⟩

/-- C9 (amended): a write failure propagates to the caller as the bare
underlying exception, with the staged file left on disk; a deletion
failure is logged only and never escalated — the call still returns
exactly what processing produced. -/
theorem c9_staging_failures :
    (∀ (st : Option Pipeline) (construct : Except PyExc Pipeline)
        (filename base : String) (e : PyExc) (u : Bool) (fs : FS),
      process_image_bytes st construct filename ⟨base, some e, u⟩ fs =
        (.error e, st, fs.create (base ++ stagedSuffix filename)))
    ∧ (∀ (st : Option Pipeline) (construct : Except PyExc Pipeline)
        (filename base : String) (fs : FS),
      process_image_bytes st construct filename ⟨base, none, true⟩ fs =
        ((process_image st construct (base ++ stagedSuffix filename)).1,
         (process_image st construct (base ++ stagedSuffix filename)).2,
         fs.create (base ++ stagedSuffix filename))) :=
  ⟨fun _ _ _ _ _ _ _ => rfl, fun _ _ _ _ _ => rfl⟩

/-- C10: when a unit's `to_dict()` raises, the whole request fails with
the wrapping `RuntimeError` carrying that cause — no fallback conversion
is attempted for the unit and no earlier unit's result is returned. -/
theorem c10_to_dict_raise_wraps (u1 v1 u2 : PyObj) (e : PyExc)
    (construct : Except PyExc Pipeline) (path : String)
    (h1 : getattr u1 "to_dict" = some (.pcallable (.ok v1)))
    (h2 : getattr u2 "to_dict" = some (.pcallable (.raises e))) :
    (process_image (some ⟨fun _ => .ok [u1, u2]⟩) construct path).1 =
      .error (processingWrap e)
    ∧ (processingWrap e).ty = "RuntimeError"
    ∧ (processingWrap e).cause = some e := by
  refine ⟨?_, rfl, rfl⟩
  simp [process_image, runPredict, tryBody, collectUnits, normalizeUnit, h1, h2]

/-- Witness for C10: a first unit normalizes fine, the second unit's
raising `to_dict` fails the whole request wrapped. -/
theorem c10_to_dict_raise_wraps_witness :
    (process_image (some ⟨fun _ => .ok [demoToDictUnit, raisingUnit]⟩)
        (.ok okPipeline) "scan.png").1 =
      .error (processingWrap (.base "KeyError" "missing"))
    ∧ (processingWrap (.base "KeyError" "missing")).ty = "RuntimeError"
    ∧ (processingWrap (.base "KeyError" "missing")).cause =
        some (.base "KeyError" "missing") :=
  c10_to_dict_raise_wraps demoToDictUnit demoDict raisingUnit
    (.base "KeyError" "missing") (.ok okPipeline) "scan.png" rfl rfl

/-- The invariant holds on the fresh process. -/
theorem initInv_init (n : Nat) : InitInv (initState n) where
  pipe_some := fun _ hh => by simp [initState] at hh
  pipe_none := fun _ => rfl
  done_pipe := fun i h hh => by simp [initState] at hh
  lock_own := fun i hi => by rcases hi with hi | hi <;> simp [initState] at hi
  crit_pipe := fun i hi => by simp [initState] at hi

/-- Every interleaving step preserves the invariant. -/
theorem initInv_step {n : Nat} {s t : InitState n}
    (inv : InitInv s) (hst : InitStep n s t) : InitInv t := by
  cases hst with
  | checkSome i h0 hpc hpipe =>
    refine ⟨inv.pipe_some, inv.pipe_none, ?_, ?_, ?_⟩
    · intro j h hj
      dsimp only at hj ⊢
      by_cases hji : j = i
      · subst hji
        rw [Function.update_same] at hj
        injection hj with hh
        rw [← hh]
        exact hpipe
      · rw [Function.update_noteq hji] at hj
        exact inv.done_pipe j h hj
    · intro j hj
      dsimp only at hj ⊢
      by_cases hji : j = i
      · subst hji
        rw [Function.update_same] at hj
        rcases hj with hj | hj <;> exact TPC.noConfusion hj
      · rw [Function.update_noteq hji] at hj
        exact inv.lock_own j hj
    · intro j hj
      dsimp only at hj ⊢
      by_cases hji : j = i
      · subst hji
        rw [Function.update_same] at hj
        exact TPC.noConfusion hj
      · rw [Function.update_noteq hji] at hj
        exact inv.crit_pipe j hj
  | checkNone i hpc hpipe =>
    refine ⟨inv.pipe_some, inv.pipe_none, ?_, ?_, ?_⟩
    · intro j h hj
      dsimp only at hj ⊢
      by_cases hji : j = i
      · subst hji
        rw [Function.update_same] at hj
        exact TPC.noConfusion hj
      · rw [Function.update_noteq hji] at hj
        exact inv.done_pipe j h hj
    · intro j hj
      dsimp only at hj ⊢
      by_cases hji : j = i
      · subst hji
        rw [Function.update_same] at hj
        rcases hj with hj | hj <;> exact TPC.noConfusion hj
      · rw [Function.update_noteq hji] at hj
        exact inv.lock_own j hj
    · intro j hj
      dsimp only at hj ⊢
      by_cases hji : j = i
      · subst hji
        rw [Function.update_same] at hj
        exact TPC.noConfusion hj
      · rw [Function.update_noteq hji] at hj
        exact inv.crit_pipe j hj
  | acquire i hpc hlock =>
    refine ⟨inv.pipe_some, inv.pipe_none, ?_, ?_, ?_⟩
    · intro j h hj
      dsimp only at hj ⊢
      by_cases hji : j = i
      · subst hji
        rw [Function.update_same] at hj
        exact TPC.noConfusion hj
      · rw [Function.update_noteq hji] at hj
        exact inv.done_pipe j h hj
    · intro j hj
      dsimp only at hj ⊢
      by_cases hji : j = i
      · subst hji
        rfl
      · rw [Function.update_noteq hji] at hj
        have hown := inv.lock_own j hj
        rw [hlock] at hown
        exact Option.noConfusion hown
    · intro j hj
      dsimp only at hj ⊢
      by_cases hji : j = i
      · subst hji
        rw [Function.update_same] at hj
        exact TPC.noConfusion hj
      · rw [Function.update_noteq hji] at hj
        exact inv.crit_pipe j hj
  | recheckSome i h0 hpc hpipe =>
    refine ⟨inv.pipe_some, inv.pipe_none, ?_, ?_, ?_⟩
    · intro j h hj
      dsimp only at hj ⊢
      by_cases hji : j = i
      · subst hji
        rw [Function.update_same] at hj
        injection hj with hh
        rw [← hh]
        exact hpipe
      · rw [Function.update_noteq hji] at hj
        exact inv.done_pipe j h hj
    · intro j hj
      dsimp only at hj ⊢
      by_cases hji : j = i
      · subst hji
        rw [Function.update_same] at hj
        rcases hj with hj | hj <;> exact TPC.noConfusion hj
      · rw [Function.update_noteq hji] at hj
        have h1 := inv.lock_own j hj
        have h2 := inv.lock_own i (Or.inl hpc)
        rw [h2] at h1
        injection h1 with h1
        exact absurd h1.symm hji
    · intro j hj
      dsimp only at hj ⊢
      by_cases hji : j = i
      · subst hji
        rw [Function.update_same] at hj
        exact TPC.noConfusion hj
      · rw [Function.update_noteq hji] at hj
        have hcp := inv.crit_pipe j hj
        rw [hpipe] at hcp
        exact Option.noConfusion hcp
  | recheckNone i hpc hpipe =>
    refine ⟨inv.pipe_some, inv.pipe_none, ?_, ?_, ?_⟩
    · intro j h hj
      dsimp only at hj ⊢
      by_cases hji : j = i
      · subst hji
        rw [Function.update_same] at hj
        exact TPC.noConfusion hj
      · rw [Function.update_noteq hji] at hj
        exact inv.done_pipe j h hj
    · intro j hj
      dsimp only at hj ⊢
      by_cases hji : j = i
      · subst hji
        exact inv.lock_own j (Or.inl hpc)
      · rw [Function.update_noteq hji] at hj
        exact inv.lock_own j hj
    · intro j hj
      dsimp only at hj ⊢
      by_cases hji : j = i
      · subst hji
        exact hpipe
      · rw [Function.update_noteq hji] at hj
        exact inv.crit_pipe j hj
  | construct i hpc =>
    have hpnone : s.pipeline = none := inv.crit_pipe i hpc
    have hc0 : s.constructions = 0 := inv.pipe_none hpnone
    have hlock : s.lockHeld = some i := inv.lock_own i (Or.inr hpc)
    refine ⟨?_, ?_, ?_, ?_, ?_⟩
    · intro h hh
      dsimp only at hh ⊢
      injection hh with hh
      rw [← hh, hc0]
      exact ⟨rfl, rfl⟩
    · intro hh
      exact Option.noConfusion hh
    · intro j h hj
      dsimp only at hj ⊢
      by_cases hji : j = i
      · subst hji
        rw [Function.update_same] at hj
        injection hj with hh
        rw [← hh]
      · rw [Function.update_noteq hji] at hj
        have hdp := inv.done_pipe j h hj
        rw [hpnone] at hdp
        exact Option.noConfusion hdp
    · intro j hj
      dsimp only at hj ⊢
      by_cases hji : j = i
      · subst hji
        rw [Function.update_same] at hj
        rcases hj with hj | hj <;> exact TPC.noConfusion hj
      · rw [Function.update_noteq hji] at hj
        have h1 := inv.lock_own j hj
        rw [hlock] at h1
        injection h1 with h1
        exact absurd h1.symm hji
    · intro j hj
      dsimp only at hj ⊢
      by_cases hji : j = i
      · subst hji
        rw [Function.update_same] at hj
        exact TPC.noConfusion hj
      · rw [Function.update_noteq hji] at hj
        have h1 := inv.lock_own j (Or.inr hj)
        rw [hlock] at h1
        injection h1 with h1
        exact absurd h1.symm hji

/-- The invariant holds in every reachable state. -/
theorem rtg_inv {n : Nat} {s : InitState n}
    (hr : Relation.ReflTransGen (InitStep n) (initState n) s) : InitInv s := by
  induction hr with
  | refl => exact initInv_init n
  | tail _ hstep ih => exact initInv_step ih hstep

/-- C1: whatever the interleaving of N first-time callers of
`_initialize_pipeline`, once every thread has returned the pipeline was
constructed exactly once, and every thread observed that same handle. -/
theorem c1_single_construction (n : Nat) (s : InitState n) (hr : Reaches n s)
    (hdone : ∀ i : Fin n, ∃ h, s.pcs i = TPC.done h) (hn : 0 < n) :
    s.constructions = 1
    ∧ ∀ i j hi hj, s.pcs i = TPC.done hi → s.pcs j = TPC.done hj → hi = hj := by
  have inv := rtg_inv hr
  obtain ⟨h0, hd0⟩ := hdone ⟨0, hn⟩
  have hp := inv.done_pipe _ h0 hd0
  refine ⟨(inv.pipe_some h0 hp).2, ?_⟩
  intro i j hi hj hhi hhj
  have hpi := inv.done_pipe i hi hhi
  have hpj := inv.done_pipe j hj hhj
  rw [hpi] at hpj
  exact Option.some.inj hpj

/-- Witness for C1: an explicit two-thread interleaving in which thread 0
constructs under the lock and thread 1 returns at the first check; the
theorem applies to its final state. -/
theorem c1_single_construction_witness :
    demoE.constructions = 1
    ∧ ∀ i j hi hj, demoE.pcs i = TPC.done hi → demoE.pcs j = TPC.done hj → hi = hj := by
  have h1 : InitStep 2 (initState 2) demoA := InitStep.checkNone _ 0 rfl rfl
  have h2 : InitStep 2 demoA demoB := InitStep.acquire _ 0 (by decide) rfl
  have h3 : InitStep 2 demoB demoC := InitStep.recheckNone _ 0 (by decide) rfl
  have h4 : InitStep 2 demoC demoD := InitStep.construct _ 0 (by decide)
  have h5 : InitStep 2 demoD demoE := InitStep.checkSome _ 1 0 (by decide) rfl
  have hr : Reaches 2 demoE :=
    Relation.ReflTransGen.tail
      (Relation.ReflTransGen.tail
        (Relation.ReflTransGen.tail
          (Relation.ReflTransGen.tail
            (Relation.ReflTransGen.tail Relation.ReflTransGen.refl h1) h2) h3) h4) h5
  have hdone : ∀ i : Fin 2, ∃ h, demoE.pcs i = TPC.done h := by
    intro i
    fin_cases i
    · exact ⟨0, by decide⟩
    · exact ⟨0, by decide⟩
  exact c1_single_construction 2 demoE hr hdone (by decide)

end POVL
